import Mathlib

/-!
Shallow embedding of the per-frame logic of the hand-tracked painting studio
and its bubble-shooter ("slingshot") game, together with proofs checking the
specification's claims against it.

Components embedded (from the TypeScript source):
- the virtual-button dwell/fire state machine (GeminiPainter and the basic
  painter variant share the same structure; press duration is a parameter,
  3000 ms in GeminiPainter, 2500 ms in the basic variant; both add 5000 ms
  to the timestamp after a fire),
- the gesture classifier getToolFromGesture of GeminiPainter,
- the stroke-segment compositing parameters of both painter variants,
- the slingshot drag / release / flight / collision step of GeminiSlingshot,
- the hex-offset bubble grid initialisation,
- the Gemini advisory service functions analyzeArt and getStrategicHint,
  with the network call and JSON parsing supplied as oracles (they are
  external effects); the Bool component of their result records whether the
  remote API would have been called.

JavaScript numbers are modelled as real numbers; timestamps (Date.now())
as integers; `undefined` string fields as the empty string where the code
relies on falsiness (process.env.API_KEY, response.text, JSON fields).
-/

namespace PaintingStudio

/-- A 2D point (the z coordinate of the source's Point is never used by the
logic embedded here). -/
structure Pt where
  x : ℝ
  y : ℝ

/-- Euclidean distance in the plane, the `Math.sqrt(Math.pow(ax-bx,2)+Math.pow(ay-by,2))`
pattern used throughout the source. -/
noncomputable def euclidDist (a b : Pt) : ℝ :=
  Real.sqrt ((a.x - b.x) ^ 2 + (a.y - b.y) ^ 2)

/-! ## Virtual button dwell state machine

From GeminiPainter's onResults (and identically structured code in the basic
painter variant):

    if (inside) {
      if (!activeButtonsRef.current[btn.id]) activeButtonsRef.current[btn.id] = Date.now();
      else if (Date.now() - activeButtonsRef.current[btn.id] > VIRTUAL_PRESS_DURATION) {
        btn.action(); activeButtonsRef.current[btn.id] = Date.now() + 5000;
      }
    } else if (activeButtonsRef.current[btn.id] && Date.now() - activeButtonsRef.current[btn.id] < VIRTUAL_PRESS_DURATION) {
      delete activeButtonsRef.current[btn.id];
    }

The per-button state is the optional stored timestamp. (The JS presence
checks use truthiness, so a stored timestamp of exactly 0 would be treated as
absent there; the Option model below matches the source whenever Date.now()
is positive, which concrete traces respect.) -/

namespace VirtualButtons

/-- One frame of the per-button dwell logic for a single button: given the
press duration constant, the stored timestamp (if any), the current time and
whether the fingertip is inside the button's hit-box, return the new stored
timestamp and whether the button's action fired this frame. -/
def buttonStep (pressDuration : Int) (st : Option Int) (now : Int) (inside : Bool) :
    Option Int × Bool :=
  if inside then
    match st with
    | Option.none => (some now, false)
    | some t =>
      if now - t > pressDuration then (some (now + 5000), true) else (some t, false)
  else
    match st with
    | Option.none => (Option.none, false)
    | some t => if now - t < pressDuration then (Option.none, false) else (some t, false)

/-- Run a sequence of frames (time, inside-hit-box) through `buttonStep`,
collecting the times at which the button's action fired. -/
def runFires (pressDuration : Int) : Option Int → List (Int × Bool) → List Int
  | _, [] => []
  | st, (now, inside) :: rest =>
    let step := buttonStep pressDuration st now inside
    (if step.2 then [now] else []) ++ runFires pressDuration step.1 rest

end VirtualButtons

/-! ## Gesture classifier (GeminiPainter) -/

/-- The HandAction type of the source. -/
inductive HandAction
  | draw
  | erase
  | text
  | smart
  | none
deriving DecidableEq

/-- Per-hand action binding (HandConfig in the source). -/
structure HandConfig where
  leftHand : HandAction
  rightHand : HandAction

namespace Painter

def PINCH_THRESHOLD : ℝ := 0.035

def FIST_THRESHOLD : ℝ := 0.08

def VIRTUAL_PRESS_DURATION : Int := 3000

/-- GeminiPainter's getToolFromGesture: with gestures disabled, classify
directly from the binding; otherwise a closed fist (all four fingertip-to-palm
distances under the fist threshold) is erase, a pinch selects the bound
action, anything else is none. Landmarks are indexed as in MediaPipe
(0 = palm base, 4 = thumb tip, 8 = index tip, 12/16/20 = other fingertips). -/
noncomputable def getToolFromGesture (gesturesEnabled : Bool) (handConfig : HandConfig)
    (landmarks : ℕ → Pt) (handedness : String) : HandAction :=
  if gesturesEnabled = false then
    (if handedness = "Left" then handConfig.leftHand else handConfig.rightHand)
  else
    let palmBase := landmarks 0
    let dists := [8, 12, 16, 20].map fun i => euclidDist (landmarks i) palmBase
    if ∀ d ∈ dists, d < FIST_THRESHOLD then HandAction.erase
    else
      let thumbTip := landmarks 4
      let indexTip := landmarks 8
      let pinchDist := euclidDist indexTip thumbTip
      if pinchDist < PINCH_THRESHOLD then
        (if handedness = "Left" then handConfig.leftHand else handConfig.rightHand)
      else HandAction.none

end Painter

/-! ## Stroke segment compositing parameters -/

/-- Canvas compositing mode used when stroking a segment. -/
inductive CompositeOp
  | sourceOver
  | destinationOut
deriving DecidableEq

/-- The two raster-affecting parameters the source sets before stroking a
segment onto the persistent drawing canvas. -/
structure SegmentDraw where
  op : CompositeOp
  width : ℚ
deriving DecidableEq

namespace Painter

/-- GeminiPainter segment parameters:
`dctx.globalCompositeOperation = tool === 'erase' ? 'destination-out' : 'source-over';`
`dctx.lineWidth = brushSize * (tool === 'erase' ? 2 : 1);` -/
def strokeSegment (tool : HandAction) (brushSize : ℚ) : SegmentDraw :=
  { op := if tool = HandAction.erase then CompositeOp.destinationOut else CompositeOp.sourceOver,
    width := brushSize * (if tool = HandAction.erase then 2 else 1) }

end Painter

namespace BasicPainter

def PRESS_DURATION : Int := 2500

/-- Basic painter variant segment parameters (the left hand erases):
`dctx.globalCompositeOperation = handedness === 'Left' ? 'destination-out' : 'source-over';`
`dctx.lineWidth = brushSize;` -/
def strokeSegment (handedness : String) (brushSize : ℚ) : SegmentDraw :=
  { op := if handedness = "Left" then CompositeOp.destinationOut else CompositeOp.sourceOver,
    width := brushSize }

end BasicPainter

/-! ## Slingshot game (GeminiSlingshot) -/

namespace Slingshot

def PINCH_THRESHOLD : ℝ := 0.05

def BUBBLE_RADIUS : ℝ := 22

noncomputable def ROW_HEIGHT : ℝ := BUBBLE_RADIUS * Real.sqrt 3

def GRID_COLS : ℕ := 12

def GRID_ROWS : ℕ := 8

def MAX_DRAG_DIST : ℝ := 180

def MIN_FORCE_MULT : ℝ := 0.15

def MAX_FORCE_MULT : ℝ := 0.45

/-- The BubbleColor union of the source. -/
inductive BubbleColor
  | red
  | blue
  | green
  | yellow
  | purple
  | orange
deriving DecidableEq

/-- Point values from COLOR_CONFIG. -/
def colorPoints : BubbleColor → ℕ
  | BubbleColor.red => 100
  | BubbleColor.blue => 150
  | BubbleColor.green => 200
  | BubbleColor.yellow => 250
  | BubbleColor.purple => 300
  | BubbleColor.orange => 500

/-- A grid bubble. -/
structure Bubble where
  id : String
  row : ℕ
  col : ℕ
  x : ℝ
  y : ℝ
  color : BubbleColor
  active : Bool

/-- getBubblePos of the source:
x = xOffset + col·(2R) + (row odd ? R : 0), y = R + row·ROW_HEIGHT. -/
noncomputable def getBubblePos (row col : ℕ) (width : ℝ) : Pt :=
  let xOffset := (width - (GRID_COLS * BUBBLE_RADIUS * 2)) / 2 + BUBBLE_RADIUS
  ⟨xOffset + col * (BUBBLE_RADIUS * 2) + (if row % 2 ≠ 0 then BUBBLE_RADIUS else 0),
   BUBBLE_RADIUS + row * ROW_HEIGHT⟩

/-- initGrid of the source: five rows, odd rows one column narrower; the
random colour choice is supplied as a function parameter. -/
noncomputable def initGrid (width : ℝ) (colorOf : ℕ → ℕ → BubbleColor) : List Bubble :=
  (List.range 5).flatMap fun r =>
    (List.range (if r % 2 ≠ 0 then GRID_COLS - 1 else GRID_COLS)).map fun c =>
      { id := s!"{r}-{c}", row := r, col := c,
        x := (getBubblePos r c width).x, y := (getBubblePos r c width).y,
        color := colorOf r c, active := true }

/-- JavaScript's Math.atan2, the angle of the vector (x, y). -/
noncomputable def atan2 (y x : ℝ) : ℝ := Complex.arg ⟨x, y⟩

/-- The drag clamp applied to the projectile while pinched:
if the distance from the anchor exceeds MAX_DRAG_DIST, project back onto the
circle of radius MAX_DRAG_DIST around the anchor using cos/sin of the drag
angle. -/
noncomputable def clampDrag (anchorPos dragPos : Pt) : Pt :=
  let dist := euclidDist dragPos anchorPos
  if dist > MAX_DRAG_DIST then
    let angle := atan2 (dragPos.y - anchorPos.y) (dragPos.x - anchorPos.x)
    ⟨anchorPos.x + Real.cos angle * MAX_DRAG_DIST,
     anchorPos.y + Real.sin angle * MAX_DRAG_DIST⟩
  else dragPos

/-- The release force multiplier as a function of the drag distance:
MIN_FORCE_MULT + (MAX_FORCE_MULT − MIN_FORCE_MULT) · (min(d / MAX_DRAG_DIST, 1))². -/
noncomputable def forceMult (dragDist : ℝ) : ℝ :=
  MIN_FORCE_MULT + (MAX_FORCE_MULT - MIN_FORCE_MULT) * (min (dragDist / MAX_DRAG_DIST) 1) ^ 2

/-- The mutable per-frame state of the slingshot game. -/
structure SlingState where
  ballPos : Pt
  ballVel : Pt
  anchorPos : Pt
  isPinching : Bool
  isFlying : Bool
  bubbles : List Bubble
  score : ℕ

/-- The pinch-release branch of onResults: if the drag distance exceeds 30
the ball starts flying with velocity (anchor − ball) · forceMult, otherwise
the ball snaps back to the anchor (cancelled shot). -/
noncomputable def release (s : SlingState) : SlingState :=
  let dx := s.anchorPos.x - s.ballPos.x
  let dy := s.anchorPos.y - s.ballPos.y
  if Real.sqrt (dx * dx + dy * dy) > 30 then
    let mult := forceMult (Real.sqrt (dx * dx + dy * dy))
    { s with isPinching := false, isFlying := true, ballVel := ⟨dx * mult, dy * mult⟩ }
  else
    { s with isPinching := false, ballPos := s.anchorPos }

/-- The per-bubble collision predicate of the flight phase:
active and distance from the projectile centre under BUBBLE_RADIUS · 1.8. -/
noncomputable def hitTest (pos : Pt) (b : Bubble) : Bool :=
  b.active && decide (Real.sqrt ((pos.x - b.x) ^ 2 + (pos.y - b.y) ^ 2) < BUBBLE_RADIUS * 1.8)

/-- `bubbles.current.find(b => b.active && dist < BUBBLE_RADIUS * 1.8)`. -/
noncomputable def findHit (pos : Pt) (bubbles : List Bubble) : Option Bubble :=
  bubbles.find? (hitTest pos)

/-- Deactivate the first bubble satisfying the predicate (the source mutates
the bubble object returned by find, which is the first match). -/
def deactivateFirst (p : Bubble → Bool) : List Bubble → List Bubble
  | [] => []
  | b :: bs => if p b then { b with active := false } :: bs else b :: deactivateFirst p bs

/-- The flight phase of onResults: integrate velocity, reflect off the side
walls, then test the bubbles and the top boundary; on a hit the struck bubble
is deactivated and its points awarded, and the ball returns to the anchor. -/
noncomputable def flightStep (width : ℝ) (s : SlingState) : SlingState :=
  if s.isFlying then
    let pos : Pt := ⟨s.ballPos.x + s.ballVel.x, s.ballPos.y + s.ballVel.y⟩
    let vel : Pt :=
      if pos.x < BUBBLE_RADIUS ∨ pos.x > width - BUBBLE_RADIUS then
        ⟨s.ballVel.x * (-1), s.ballVel.y⟩
      else s.ballVel
    match findHit pos s.bubbles with
    | some hit =>
      { s with isFlying := false, ballPos := s.anchorPos, ballVel := vel,
               bubbles := deactivateFirst (hitTest pos) s.bubbles,
               score := s.score + colorPoints hit.color }
    | Option.none =>
      if pos.y < BUBBLE_RADIUS then
        { s with isFlying := false, ballPos := s.anchorPos, ballVel := vel }
      else
        { s with ballPos := pos, ballVel := vel }
  else s

/-- One whole frame of the slingshot's onResults hand/physics logic.
Only `multiHandLandmarks[0]` is consulted: with at least one hand present the
hand position is the mirrored midpoint of landmarks 8 and 4 and the pinch
distance their separation; with no hand the pinch distance defaults to 1.0.
Then the pinch / drag / release logic runs, followed by the flight phase. -/
noncomputable def slingFrame (width height : ℝ) (s : SlingState) (hands : List (ℕ → Pt)) :
    SlingState :=
  let handPos : Option Pt :=
    match hands with
    | [] => Option.none
    | lm :: _ =>
      some ⟨(1 - ((lm 8).x + (lm 4).x) / 2) * width, ((lm 8).y + (lm 4).y) / 2 * height⟩
  let pinchDist : ℝ :=
    match hands with
    | [] => 1.0
    | lm :: _ => Real.sqrt (((lm 8).x - (lm 4).x) ^ 2 + ((lm 8).y - (lm 4).y) ^ 2)
  let s1 :=
    match handPos with
    | some hp =>
      if pinchDist < PINCH_THRESHOLD ∧ s.isFlying = false then
        let pinching :=
          if s.isPinching = false ∧ euclidDist hp s.ballPos < 100 then true else s.isPinching
        if pinching then
          { s with isPinching := true, ballPos := clampDrag s.anchorPos hp }
        else s
      else if s.isPinching then release s else s
    | Option.none => if s.isPinching then release s else s
  flightStep width s1

end Slingshot

/-! ## Gemini advisory service (geminiService) -/

namespace GeminiService

/-- DebugInfo of the source (parsedResponse, an any-typed echo of the parsed
JSON used only for display, is omitted). -/
structure DebugInfo where
  latency : ℕ
  screenshotBase64 : String
  promptContext : String
  rawResponse : String
  timestamp : String
  error : Option String := Option.none

/-- The hint part of AiResponse; message is required, the rest optional. -/
structure Hint where
  message : String
  suggestion : Option String := Option.none
  detectedSubject : Option String := Option.none
  artStyle : Option String := Option.none
  rationale : Option String := Option.none
  targetRow : Option Int := Option.none
  targetCol : Option Int := Option.none
  recommendedColor : Option Slingshot.BubbleColor := Option.none

/-- The AiResponse bundle of the source. -/
structure AiResponse where
  hint : Hint
  debug : DebugInfo

/-- TargetCandidate of the source. -/
structure TargetCandidate where
  id : String
  color : Slingshot.BubbleColor
  size : ℕ
  row : ℕ
  col : ℕ
  pointsPerBubble : ℕ
  description : String

/-- Outcome of the awaited generateContent call: the response text (empty for
an undefined response.text), or the message of a thrown error. -/
inductive NetOutcome
  | ok (text : String)
  | thrown (message : String)

/-- The parsed JSON shape of the art critique reply; absent fields are none. -/
structure ArtJson where
  message : Option String
  suggestion : Option String
  detectedSubject : Option String
  artStyle : Option String

/-- JavaScript `s || d` on an optional string field (undefined and the empty
string are both falsy). -/
def jsOr (s : Option String) (d : String) : String :=
  match s with
  | some m => if m = "" then d else m
  | Option.none => d

/-- analyzeArt: on a missing API key, return the fallback immediately without
calling the remote API; otherwise call it (modelled by the `net` oracle) and
parse the reply (modelled by the `parseJson` oracle). The Bool result records
whether the remote API was called. -/
def analyzeArt (apiKey : String) (net : NetOutcome)
    (parseJson : String → Except String ArtJson) (latencyMs : ℕ) (timestamp : String)
    (imageBase64 : String) (strokeCount : ℕ) : AiResponse × Bool :=
  let debug : DebugInfo :=
    { latency := 0, screenshotBase64 := imageBase64,
      promptContext := s!"Strokes: {strokeCount}",
      rawResponse := "", timestamp := timestamp }
  if apiKey = "" then
    ({ hint := { message := "API Key missing.",
                 suggestion := some "Please check your environment." },
       debug := { debug with error := some "API Key Missing" } }, false)
  else
    match net with
    | NetOutcome.thrown msg =>
      ({ hint := { message := "The muse is silent for a moment.",
                   suggestion := some "Paint on!" },
         debug := { debug with
                    latency := latencyMs,
                    error := some (if msg = "" then "Unknown API Error" else msg) } }, true)
    | NetOutcome.ok rtext =>
      let text := if rtext = "" then "{}" else rtext
      match parseJson text with
      | Except.error e =>
        ({ hint := { message := "Fascinating work...", suggestion := some "Keep going!" },
           debug := { debug with
                      latency := latencyMs,
                      rawResponse := text,
                      error := some ("JSON Parse Error: " ++ e) } }, true)
      | Except.ok json =>
        ({ hint := { message := jsOr json.message "Keep painting!",
                     suggestion := some (jsOr json.suggestion "Try adding some swirls."),
                     detectedSubject := json.detectedSubject, artStyle := json.artStyle },
           debug := { debug with
                      latency := latencyMs,
                      rawResponse := text } }, true)

/-- getStrategicHint: same contract as analyzeArt; on success the parsed JSON
object is used as the hint directly. -/
def getStrategicHint (apiKey : String) (net : NetOutcome)
    (parseJson : String → Except String Hint) (latencyMs : ℕ) (timestamp : String)
    (screenshot : String) (candidates : List TargetCandidate) (maxRow : ℕ) :
    AiResponse × Bool :=
  let clusterCount := candidates.length
  let debug : DebugInfo :=
    { latency := 0, screenshotBase64 := screenshot,
      promptContext := s!"Clusters: {clusterCount}, Max Row: {maxRow}",
      rawResponse := "", timestamp := timestamp }
  if apiKey = "" then
    ({ hint := { message := "API Key missing." },
       debug := { debug with error := some "API Key Missing" } }, false)
  else
    match net with
    | NetOutcome.thrown msg =>
      ({ hint := { message := "Strategy engine paused." },
         debug := { debug with
                    latency := latencyMs,
                    error := some (if msg = "" then "Unknown API Error" else msg) } }, true)
    | NetOutcome.ok rtext =>
      let text := if rtext = "" then "{}" else rtext
      match parseJson text with
      | Except.error e =>
        ({ hint := { message := "Calculating the perfect trajectory..." },
           debug := { debug with
                      latency := latencyMs,
                      rawResponse := text,
                      error := some ("JSON Parse Error: " ++ e) } }, true)
      | Except.ok json =>
        ({ hint := json,
           debug := { debug with
                      latency := latencyMs,
                      rawResponse := text } }, true)

end GeminiService

/-! ## Theorems -/

/-- C10: In the slingshot game only the first detected hand's landmarks
influence the game state: a per-frame step on two frames that agree on the
first hand's landmarks produces identical states (projectile position,
velocity, pinch state, bubble states and score), regardless of how many
additional hands are present or where their landmarks lie. -/
theorem slingFrame_ignores_extra_hands (width height : ℝ) (s : Slingshot.SlingState)
    (lm : ℕ → Pt) (extra₁ extra₂ : List (ℕ → Pt)) :
    Slingshot.slingFrame width height s (lm :: extra₁) =
      Slingshot.slingFrame width height s (lm :: extra₂) := rfl

/-- C2: With no API credential configured, both analyzeArt and getStrategicHint
resolve without making any network call (second component false), returning a
debug record whose error field equals "API Key Missing" and a hint carrying a
non-null fallback message. -/
theorem advisory_missing_key (apiKey : String) (net : GeminiService.NetOutcome)
    (parseArtJson : String → Except String GeminiService.ArtJson)
    (parseHintJson : String → Except String GeminiService.Hint)
    (latencyMs : ℕ) (timestamp : String) (imageBase64 screenshot : String)
    (strokeCount maxRow : ℕ) (candidates : List GeminiService.TargetCandidate)
    (hkey : apiKey = "") :
    ((GeminiService.analyzeArt apiKey net parseArtJson latencyMs timestamp imageBase64
          strokeCount).2 = false ∧
      (GeminiService.analyzeArt apiKey net parseArtJson latencyMs timestamp imageBase64
          strokeCount).1.debug.error = some "API Key Missing" ∧
      (GeminiService.analyzeArt apiKey net parseArtJson latencyMs timestamp imageBase64
          strokeCount).1.hint.message = "API Key missing.") ∧
    ((GeminiService.getStrategicHint apiKey net parseHintJson latencyMs timestamp screenshot
          candidates maxRow).2 = false ∧
      (GeminiService.getStrategicHint apiKey net parseHintJson latencyMs timestamp screenshot
          candidates maxRow).1.debug.error = some "API Key Missing" ∧
      (GeminiService.getStrategicHint apiKey net parseHintJson latencyMs timestamp screenshot
          candidates maxRow).1.hint.message = "API Key missing.") := by
  subst hkey
  exact ⟨⟨rfl, rfl, rfl⟩, rfl, rfl, rfl⟩

/-- Witness for advisory_missing_key at concrete inputs. -/
theorem advisory_missing_key_witness :
    ((GeminiService.analyzeArt "" (GeminiService.NetOutcome.ok "{}") (fun _ => Except.error "e")
          7 "12:00" "img" 3).2 = false ∧
      (GeminiService.analyzeArt "" (GeminiService.NetOutcome.ok "{}") (fun _ => Except.error "e")
          7 "12:00" "img" 3).1.debug.error = some "API Key Missing" ∧
      (GeminiService.analyzeArt "" (GeminiService.NetOutcome.ok "{}") (fun _ => Except.error "e")
          7 "12:00" "img" 3).1.hint.message = "API Key missing.") ∧
    ((GeminiService.getStrategicHint "" (GeminiService.NetOutcome.ok "{}")
          (fun _ => Except.error "e") 7 "12:00" "shot" [] 0).2 = false ∧
      (GeminiService.getStrategicHint "" (GeminiService.NetOutcome.ok "{}")
          (fun _ => Except.error "e") 7 "12:00" "shot" [] 0).1.debug.error =
        some "API Key Missing" ∧
      (GeminiService.getStrategicHint "" (GeminiService.NetOutcome.ok "{}")
          (fun _ => Except.error "e") 7 "12:00" "shot" [] 0).1.hint.message =
        "API Key missing.") :=
  advisory_missing_key "" (GeminiService.NetOutcome.ok "{}") (fun _ => Except.error "e")
    (fun _ => Except.error "e") 7 "12:00" "img" "shot" 3 0 [] rfl

/-- C8 counterexample: in the basic painter variant an erase segment (the
left hand, composited with destination-out) is stroked with the plain brush
width, not the brush width multiplied by 2. -/
theorem erase_width_counterexample :
    (BasicPainter.strokeSegment "Left" 15).op = CompositeOp.destinationOut ∧
      (BasicPainter.strokeSegment "Left" 15).width = 15 ∧
      (BasicPainter.strokeSegment "Left" 15).width ≠ 15 * 2 := by
  refine ⟨rfl, rfl, by norm_num [BasicPainter.strokeSegment]⟩

/-- C8 amended: in GeminiPainter every erase segment is composited with
destination-out at twice the ordinary draw width (which uses source-over at
the plain width); in the basic painter variant erase segments use
destination-out at the plain brush width (no multiplier). -/
theorem erase_segment_params (brushSize : ℚ) :
    Painter.strokeSegment HandAction.erase brushSize =
        { op := CompositeOp.destinationOut, width := brushSize * 2 } ∧
      Painter.strokeSegment HandAction.draw brushSize =
        { op := CompositeOp.sourceOver, width := brushSize * 1 } ∧
      BasicPainter.strokeSegment "Left" brushSize =
        { op := CompositeOp.destinationOut, width := brushSize } :=
  ⟨rfl, rfl, rfl⟩

/-- C3: with gesture detection enabled, whenever all four fingertip-to-palm
spread distances are below the closed-fist threshold the classifier returns
erase, regardless of the configured left/right hand binding. -/
theorem fist_overrides_binding (handConfig : HandConfig) (landmarks : ℕ → Pt)
    (handedness : String)
    (hfist : ∀ i ∈ [8, 12, 16, 20],
      euclidDist (landmarks i) (landmarks 0) < Painter.FIST_THRESHOLD) :
    Painter.getToolFromGesture true handConfig landmarks handedness = HandAction.erase := by
  have hcond : ∀ d ∈ [8, 12, 16, 20].map fun i => euclidDist (landmarks i) (landmarks 0),
      d < Painter.FIST_THRESHOLD := by
    intro d hd
    rcases List.mem_map.mp hd with ⟨i, hi, rfl⟩
    exact hfist i hi
  unfold Painter.getToolFromGesture
  rw [if_neg (by simp), if_pos hcond]

/-- Witness for fist_overrides_binding: with every landmark at the origin all
spread distances are 0, and the classifier returns erase even though both
hands are bound to draw. -/
theorem fist_overrides_binding_witness :
    Painter.getToolFromGesture true
      { leftHand := HandAction.draw, rightHand := HandAction.draw }
      (fun _ => ⟨0, 0⟩) "Right" = HandAction.erase := by
  apply fist_overrides_binding
  intro i _
  simp [euclidDist, Painter.FIST_THRESHOLD]
  norm_num

/-- Helper for C1: starting from a stored timestamp c, while the fingertip
stays inside the hit-box every fire happens strictly more than the press
duration after c (the stored timestamp is only ever replaced on a fire). -/
theorem runFires_dwell_lower_bound (pressDuration : Int) (hD : 0 ≤ pressDuration)
    (frames : List (Int × Bool)) :
    ∀ c : Int, (∀ f ∈ frames, f.2 = true) →
      ∀ t ∈ VirtualButtons.runFires pressDuration (some c) frames, c + pressDuration < t := by
  induction frames with
  | nil =>
    intro c _ t ht
    simp [VirtualButtons.runFires] at ht
  | cons f rest ih =>
    intro c hin t ht
    obtain ⟨now, inside⟩ := f
    have hins : inside = true := hin (now, inside) (List.mem_cons_self _ _)
    subst hins
    have hin' : ∀ g ∈ rest, g.2 = true := fun g hg => hin g (List.mem_cons_of_mem _ hg)
    by_cases hfire : now - c > pressDuration
    · simp only [VirtualButtons.runFires, VirtualButtons.buttonStep, if_pos hfire, if_true,
        List.singleton_append, List.mem_cons] at ht
      rcases ht with rfl | ht
      · omega
      · have := ih (now + 5000) hin' t ht
        omega
    · simp only [VirtualButtons.runFires, VirtualButtons.buttonStep, if_neg hfire, if_true,
        List.nil_append] at ht
      exact ih c hin' t ht

/-- Helper for C1: during a continuous dwell (all frames inside), consecutive
fires are separated by strictly more than 5000 ms plus the press duration. -/
theorem runFires_pairwise_gap (pressDuration : Int) (hD : 0 ≤ pressDuration)
    (frames : List (Int × Bool)) :
    ∀ st : Option Int, (∀ f ∈ frames, f.2 = true) →
      List.Pairwise (fun a b => a + 5000 + pressDuration < b)
        (VirtualButtons.runFires pressDuration st frames) := by
  induction frames with
  | nil =>
    intro st _
    simp [VirtualButtons.runFires]
  | cons f rest ih =>
    intro st hin
    obtain ⟨now, inside⟩ := f
    have hins : inside = true := hin (now, inside) (List.mem_cons_self _ _)
    subst hins
    have hin' : ∀ g ∈ rest, g.2 = true := fun g hg => hin g (List.mem_cons_of_mem _ hg)
    cases st with
    | none =>
      simpa [VirtualButtons.runFires, VirtualButtons.buttonStep] using ih (some now) hin'
    | some c =>
      by_cases hfire : now - c > pressDuration
      · simp only [VirtualButtons.runFires, VirtualButtons.buttonStep, if_pos hfire, if_true,
          List.singleton_append]
        refine List.Pairwise.cons ?_ (ih (some (now + 5000)) hin')
        intro t ht
        have := runFires_dwell_lower_bound pressDuration hD rest (now + 5000) hin' t ht
        omega
      · simp only [VirtualButtons.runFires, VirtualButtons.buttonStep, if_neg hfire, if_true,
          List.nil_append]
        exact ih (some c) hin'

/-- C1 counterexample: with the GeminiPainter press duration of 3000 ms,
(a) a single continuous dwell episode (every frame inside the hit-box,
entering at 1000) fires twice, at 4001 and again at 12002; and (b) after a
fire at 4001, exiting at 4002 (which deletes the stored cooldown timestamp)
and re-entering at 4003 produces another fire at 7004, which is within the
5000 ms cooldown window of the first fire. -/
theorem button_refire_counterexample :
    VirtualButtons.runFires 3000 Option.none
        [(1000, true), (4001, true), (12002, true)] = [4001, 12002] ∧
      VirtualButtons.runFires 3000 Option.none
        [(1000, true), (4001, true), (4002, false), (4003, true), (7004, true)] =
        [4001, 7004] ∧
      (7004 : Int) - 4001 < 5000 := by
  refine ⟨by decide, by decide, by decide⟩

/-- C1 amended: a fire requires a dwell strictly longer than the press
duration from the stored timestamp — so a fingertip that exits and re-enters
after a fire (which clears the stored timestamp) cannot re-fire within the
press duration of re-entry — and while the fingertip stays continuously
inside the hit-box, consecutive fires are separated by strictly more than
5000 ms plus the press duration. (The claim's stronger form — at most one
fire per continuous dwell episode, and no re-fire at all before the cooldown
expires after exit-and-re-entry — is refuted by button_refire_counterexample.) -/
theorem button_fire_separation (pressDuration c : Int) (hD : 0 ≤ pressDuration)
    (frames : List (Int × Bool)) (hin : ∀ f ∈ frames, f.2 = true) :
    (∀ t ∈ VirtualButtons.runFires pressDuration (some c) frames, c + pressDuration < t) ∧
      List.Pairwise (fun a b => a + 5000 + pressDuration < b)
        (VirtualButtons.runFires pressDuration (some c) frames) :=
  ⟨runFires_dwell_lower_bound pressDuration hD frames c hin,
    runFires_pairwise_gap pressDuration hD frames (some c) hin⟩

/-- Witness for button_fire_separation at the GeminiPainter press duration. -/
theorem button_fire_separation_witness :
    (∀ t ∈ VirtualButtons.runFires 3000 (some 1000) [((4001 : Int), true)], 1000 + 3000 < t) ∧
      List.Pairwise (fun a b => a + 5000 + 3000 < b)
        (VirtualButtons.runFires 3000 (some 1000) [((4001 : Int), true)]) :=
  button_fire_separation 3000 1000 (by norm_num) [((4001 : Int), true)] (by decide)

/-- C5: the release force multiplier equals
minMult + (maxMult − minMult) · (min(d / maxDrag, 1))², is monotonically
non-decreasing in the drag distance, and is bounded in [minMult, maxMult]. -/
theorem force_mult_formula_monotone_bounded (d d' : ℝ) (hd : 0 ≤ d) (hdd : d ≤ d') :
    Slingshot.forceMult d =
        Slingshot.MIN_FORCE_MULT + (Slingshot.MAX_FORCE_MULT - Slingshot.MIN_FORCE_MULT) *
          (min (d / Slingshot.MAX_DRAG_DIST) 1) ^ 2 ∧
      Slingshot.MIN_FORCE_MULT ≤ Slingshot.forceMult d ∧
      Slingshot.forceMult d ≤ Slingshot.MAX_FORCE_MULT ∧
      Slingshot.forceMult d ≤ Slingshot.forceMult d' := by
  have h180 : (0 : ℝ) < Slingshot.MAX_DRAG_DIST := by norm_num [Slingshot.MAX_DRAG_DIST]
  have hm0 : 0 ≤ min (d / Slingshot.MAX_DRAG_DIST) 1 :=
    le_min (div_nonneg hd h180.le) zero_le_one
  have hm1 : min (d / Slingshot.MAX_DRAG_DIST) 1 ≤ 1 := min_le_right _ _
  have hmono : min (d / Slingshot.MAX_DRAG_DIST) 1 ≤ min (d' / Slingshot.MAX_DRAG_DIST) 1 :=
    min_le_min ((div_le_div_iff_of_pos_right h180).mpr hdd) le_rfl
  have hsq : (min (d / Slingshot.MAX_DRAG_DIST) 1) ^ 2 ≤
      (min (d' / Slingshot.MAX_DRAG_DIST) 1) ^ 2 :=
    pow_le_pow_left₀ hm0 hmono 2
  have hsq1 : (min (d / Slingshot.MAX_DRAG_DIST) 1) ^ 2 ≤ 1 := by
    nlinarith
  refine ⟨rfl, ?_, ?_, ?_⟩
  · unfold Slingshot.forceMult Slingshot.MIN_FORCE_MULT Slingshot.MAX_FORCE_MULT
    nlinarith [sq_nonneg (min (d / Slingshot.MAX_DRAG_DIST) 1)]
  · unfold Slingshot.forceMult Slingshot.MIN_FORCE_MULT Slingshot.MAX_FORCE_MULT
    nlinarith
  · unfold Slingshot.forceMult Slingshot.MIN_FORCE_MULT Slingshot.MAX_FORCE_MULT
    nlinarith

/-- Helper: evaluate a square root at a perfect square. -/
theorem sqrt_eval (a b : ℝ) (hb : 0 ≤ b) (h : a = b ^ 2) : Real.sqrt a = b := by
  rw [h, Real.sqrt_sq hb]

/-- Helper: the force multiplier is strictly positive. -/
theorem forceMult_pos (d : ℝ) : 0 < Slingshot.forceMult d := by
  unfold Slingshot.forceMult Slingshot.MIN_FORCE_MULT Slingshot.MAX_FORCE_MULT
  nlinarith [sq_nonneg (min (d / Slingshot.MAX_DRAG_DIST) 1)]

/-- C6: on pinch release, a drag distance of exactly 30 (the minimum release
threshold) cancels the shot — the projectile snaps back to the anchor and no
flight begins — while a drag distance strictly above 30 starts a flight whose
initial velocity is a positive multiple of (anchor − drag point), i.e. it
points from the drag point toward the anchor. -/
theorem release_threshold_behavior (s : Slingshot.SlingState) (hfly : s.isFlying = false) :
    (Real.sqrt ((s.anchorPos.x - s.ballPos.x) * (s.anchorPos.x - s.ballPos.x) +
          (s.anchorPos.y - s.ballPos.y) * (s.anchorPos.y - s.ballPos.y)) = 30 →
        Slingshot.release s = { s with isPinching := false, ballPos := s.anchorPos } ∧
          (Slingshot.release s).isFlying = false) ∧
      (Real.sqrt ((s.anchorPos.x - s.ballPos.x) * (s.anchorPos.x - s.ballPos.x) +
          (s.anchorPos.y - s.ballPos.y) * (s.anchorPos.y - s.ballPos.y)) > 30 →
        (Slingshot.release s).isFlying = true ∧
          ∃ m : ℝ, 0 < m ∧
            (Slingshot.release s).ballVel.x = m * (s.anchorPos.x - s.ballPos.x) ∧
            (Slingshot.release s).ballVel.y = m * (s.anchorPos.y - s.ballPos.y)) := by
  constructor
  · intro h30
    have hnot : ¬ (Real.sqrt ((s.anchorPos.x - s.ballPos.x) * (s.anchorPos.x - s.ballPos.x) +
        (s.anchorPos.y - s.ballPos.y) * (s.anchorPos.y - s.ballPos.y)) > 30) := by
      rw [h30]
      exact lt_irrefl 30
    refine ⟨?_, ?_⟩
    · simp only [Slingshot.release]
      rw [if_neg hnot]
    · simp only [Slingshot.release]
      rw [if_neg hnot]
      exact hfly
  · intro hgt
    refine ⟨?_, Slingshot.forceMult (Real.sqrt ((s.anchorPos.x - s.ballPos.x) *
        (s.anchorPos.x - s.ballPos.x) +
        (s.anchorPos.y - s.ballPos.y) * (s.anchorPos.y - s.ballPos.y))), forceMult_pos _,
        ?_, ?_⟩
    · simp only [Slingshot.release]
      rw [if_pos hgt]
    · simp only [Slingshot.release]
      rw [if_pos hgt]
      exact mul_comm _ _
    · simp only [Slingshot.release]
      rw [if_pos hgt]
      exact mul_comm _ _

/-- Witness for release_threshold_behavior: a drag of exactly 30 px below the
anchor cancels (snap back, still not flying); a drag of 50 px starts a
flight. -/
theorem release_threshold_witness :
    Slingshot.release
        { ballPos := ⟨0, 30⟩, ballVel := ⟨0, 0⟩, anchorPos := ⟨0, 0⟩,
          isPinching := true, isFlying := false, bubbles := [], score := 0 } =
      { ballPos := ⟨0, 0⟩, ballVel := ⟨0, 0⟩, anchorPos := ⟨0, 0⟩,
        isPinching := false, isFlying := false, bubbles := [], score := 0 } ∧
    (Slingshot.release
        { ballPos := ⟨0, 50⟩, ballVel := ⟨0, 0⟩, anchorPos := ⟨0, 0⟩,
          isPinching := true, isFlying := false, bubbles := [], score := 0 }).isFlying = true := by
  constructor
  · exact ((release_threshold_behavior _ rfl).1
      (by
        rw [show ((0 : ℝ) - 0) * ((0 : ℝ) - 0) + ((0 : ℝ) - 30) * ((0 : ℝ) - 30) = 900 by
          norm_num]
        exact sqrt_eval 900 30 (by norm_num) (by norm_num))).1
  · exact ((release_threshold_behavior _ rfl).2
      (by
        rw [show ((0 : ℝ) - 0) * ((0 : ℝ) - 0) + ((0 : ℝ) - 50) * ((0 : ℝ) - 50) = 2500 by
          norm_num]
        rw [sqrt_eval 2500 50 (by norm_num) (by norm_num)]
        norm_num)).1

/-- C7 counterexample: a projectile 50 px from an active bubble's centre is
within the claim's collision radius (sum of the two radii times 1.8 = 79.2)
but the code's collision test (BUBBLE_RADIUS · 1.8 = 39.6) finds no hit. -/
theorem collision_sum_radii_counterexample :
    Slingshot.findHit ⟨50, 0⟩
        [{ id := "0-0", row := 0, col := 0, x := 0, y := 0,
           color := Slingshot.BubbleColor.red, active := true }] = Option.none ∧
      Real.sqrt (((50 : ℝ) - 0) ^ 2 + ((0 : ℝ) - 0) ^ 2) <
        (Slingshot.BUBBLE_RADIUS + Slingshot.BUBBLE_RADIUS) * 1.8 := by
  have h50 : Real.sqrt (((50 : ℝ) - 0) ^ 2 + ((0 : ℝ) - 0) ^ 2) = 50 := by
    rw [show ((50 : ℝ) - 0) ^ 2 + ((0 : ℝ) - 0) ^ 2 = 2500 by norm_num]
    exact sqrt_eval 2500 50 (by norm_num) (by norm_num)
  have hmiss : Slingshot.hitTest ⟨50, 0⟩
      { id := "0-0", row := 0, col := 0, x := 0, y := 0,
        color := Slingshot.BubbleColor.red, active := true } = false := by
    unfold Slingshot.hitTest
    rw [Bool.true_and, decide_eq_false]
    rw [h50]
    norm_num [Slingshot.BUBBLE_RADIUS]
  constructor
  · unfold Slingshot.findHit
    rw [List.find?_cons_of_neg _ (by rw [hmiss]; exact Bool.false_ne_true)]
    rfl
  · rw [h50]
    norm_num [Slingshot.BUBBLE_RADIUS]

/-- C7 amended: while flying, the projectile is tested against every active
bubble, and a collision occurs exactly when the distance between the
projectile centre and a bubble centre is less than BUBBLE_RADIUS · 1.8 — a
single bubble radius times the 1.8 overlap factor (equivalently, the sum of
the two equal radii times 0.9), not the sum of the radii times 1.8. -/
theorem collision_iff_radius_factor (pos : Pt) (bubbles : List Slingshot.Bubble) :
    (Slingshot.findHit pos bubbles).isSome = true ↔
      ∃ b ∈ bubbles, b.active = true ∧
        Real.sqrt ((pos.x - b.x) ^ 2 + (pos.y - b.y) ^ 2) < Slingshot.BUBBLE_RADIUS * 1.8 := by
  simp only [Slingshot.findHit, List.find?_isSome, Slingshot.hitTest, Bool.and_eq_true,
    decide_eq_true_eq]

/-- Witness for force_mult_formula_monotone_bounded at d = 0, d' = 180. -/
theorem force_mult_witness :
    Slingshot.forceMult 0 =
        Slingshot.MIN_FORCE_MULT + (Slingshot.MAX_FORCE_MULT - Slingshot.MIN_FORCE_MULT) *
          (min ((0 : ℝ) / Slingshot.MAX_DRAG_DIST) 1) ^ 2 ∧
      Slingshot.MIN_FORCE_MULT ≤ Slingshot.forceMult 0 ∧
      Slingshot.forceMult 0 ≤ Slingshot.MAX_FORCE_MULT ∧
      Slingshot.forceMult 0 ≤ Slingshot.forceMult 180 :=
  force_mult_formula_monotone_bounded 0 180 le_rfl (by norm_num)

/-- C4: the projectile position after drag clamping lies exactly on the
segment from the anchor toward the raw drag point (a scaling of the drag
vector by some t ∈ [0, 1]), at distance min(d, MAX_DRAG_DIST) from the
anchor, where d is the raw drag distance; direction is preserved and the
clamped distance never exceeds MAX_DRAG_DIST. -/
theorem drag_clamp_on_segment (anchorPos dragPos : Pt) :
    ∃ t : ℝ, 0 ≤ t ∧ t ≤ 1 ∧
      (Slingshot.clampDrag anchorPos dragPos).x = anchorPos.x + t * (dragPos.x - anchorPos.x) ∧
      (Slingshot.clampDrag anchorPos dragPos).y = anchorPos.y + t * (dragPos.y - anchorPos.y) ∧
      euclidDist (Slingshot.clampDrag anchorPos dragPos) anchorPos =
        min (euclidDist dragPos anchorPos) Slingshot.MAX_DRAG_DIST := by
  have hMpos : (0 : ℝ) < Slingshot.MAX_DRAG_DIST := by norm_num [Slingshot.MAX_DRAG_DIST]
  by_cases hgt : euclidDist dragPos anchorPos > Slingshot.MAX_DRAG_DIST
  case neg =>
    refine ⟨1, zero_le_one, le_refl 1, ?_, ?_, ?_⟩
    · simp only [Slingshot.clampDrag, if_neg hgt]
      ring
    · simp only [Slingshot.clampDrag, if_neg hgt]
      ring
    · simp only [Slingshot.clampDrag, if_neg hgt]
      rw [min_eq_left (le_of_not_gt hgt)]
  case pos =>
    have hdpos : 0 < euclidDist dragPos anchorPos := lt_trans hMpos hgt
    have hsum : (dragPos.x - anchorPos.x) ^ 2 + (dragPos.y - anchorPos.y) ^ 2 =
        euclidDist dragPos anchorPos ^ 2 := by
      unfold euclidDist
      rw [Real.sq_sqrt (by positivity)]
    have hz : ((⟨dragPos.x - anchorPos.x, dragPos.y - anchorPos.y⟩ : ℂ)) ≠ 0 := by
      intro h0
      rw [Complex.ext_iff] at h0
      obtain ⟨hre, him⟩ := h0
      simp only [Complex.zero_re, Complex.zero_im] at hre him
      rw [hre, him] at hsum
      nlinarith [hsum, hdpos]
    have habs : Complex.abs ⟨dragPos.x - anchorPos.x, dragPos.y - anchorPos.y⟩ =
        euclidDist dragPos anchorPos := by
      rw [Complex.abs_apply, Complex.normSq_mk]
      unfold euclidDist
      rw [show (dragPos.x - anchorPos.x) * (dragPos.x - anchorPos.x) +
          (dragPos.y - anchorPos.y) * (dragPos.y - anchorPos.y) =
          (dragPos.x - anchorPos.x) ^ 2 + (dragPos.y - anchorPos.y) ^ 2 by ring]
    have hcos : Real.cos (Slingshot.atan2 (dragPos.y - anchorPos.y)
        (dragPos.x - anchorPos.x)) =
        (dragPos.x - anchorPos.x) / euclidDist dragPos anchorPos := by
      unfold Slingshot.atan2
      rw [Complex.cos_arg hz, habs]
    have hsin : Real.sin (Slingshot.atan2 (dragPos.y - anchorPos.y)
        (dragPos.x - anchorPos.x)) =
        (dragPos.y - anchorPos.y) / euclidDist dragPos anchorPos := by
      unfold Slingshot.atan2
      rw [Complex.sin_arg, habs]
    have hd0 : euclidDist dragPos anchorPos ≠ 0 := ne_of_gt hdpos
    refine ⟨Slingshot.MAX_DRAG_DIST / euclidDist dragPos anchorPos,
      div_nonneg hMpos.le hdpos.le, (div_le_one hdpos).mpr (le_of_lt hgt), ?_, ?_, ?_⟩
    · simp only [Slingshot.clampDrag, if_pos hgt]
      show anchorPos.x + Real.cos (Slingshot.atan2 (dragPos.y - anchorPos.y)
          (dragPos.x - anchorPos.x)) * Slingshot.MAX_DRAG_DIST =
        anchorPos.x + Slingshot.MAX_DRAG_DIST / euclidDist dragPos anchorPos *
          (dragPos.x - anchorPos.x)
      rw [hcos]
      field_simp
      ring
    · simp only [Slingshot.clampDrag, if_pos hgt]
      show anchorPos.y + Real.sin (Slingshot.atan2 (dragPos.y - anchorPos.y)
          (dragPos.x - anchorPos.x)) * Slingshot.MAX_DRAG_DIST =
        anchorPos.y + Slingshot.MAX_DRAG_DIST / euclidDist dragPos anchorPos *
          (dragPos.y - anchorPos.y)
      rw [hsin]
      field_simp
      ring
    · simp only [Slingshot.clampDrag, if_pos hgt]
      show Real.sqrt ((anchorPos.x + Real.cos (Slingshot.atan2 (dragPos.y - anchorPos.y)
            (dragPos.x - anchorPos.x)) * Slingshot.MAX_DRAG_DIST - anchorPos.x) ^ 2 +
          (anchorPos.y + Real.sin (Slingshot.atan2 (dragPos.y - anchorPos.y)
            (dragPos.x - anchorPos.x)) * Slingshot.MAX_DRAG_DIST - anchorPos.y) ^ 2) =
        min (euclidDist dragPos anchorPos) Slingshot.MAX_DRAG_DIST
      have key : (anchorPos.x + Real.cos (Slingshot.atan2 (dragPos.y - anchorPos.y)
            (dragPos.x - anchorPos.x)) * Slingshot.MAX_DRAG_DIST - anchorPos.x) ^ 2 +
          (anchorPos.y + Real.sin (Slingshot.atan2 (dragPos.y - anchorPos.y)
            (dragPos.x - anchorPos.x)) * Slingshot.MAX_DRAG_DIST - anchorPos.y) ^ 2 =
          Slingshot.MAX_DRAG_DIST ^ 2 := by
        rw [hcos, hsin]
        field_simp
        linear_combination Slingshot.MAX_DRAG_DIST ^ 2 * hsum
      rw [key, Real.sqrt_sq hMpos.le, min_eq_right (le_of_lt hgt)]

/-- Witness for drag_clamp_on_segment at a concrete over-long drag. -/
theorem drag_clamp_witness :
    ∃ t : ℝ, 0 ≤ t ∧ t ≤ 1 ∧
      (Slingshot.clampDrag ⟨0, 0⟩ ⟨300, 0⟩).x = (0 : ℝ) + t * (300 - 0) ∧
      (Slingshot.clampDrag ⟨0, 0⟩ ⟨300, 0⟩).y = (0 : ℝ) + t * (0 - 0) ∧
      euclidDist (Slingshot.clampDrag ⟨0, 0⟩ ⟨300, 0⟩) ⟨0, 0⟩ =
        min (euclidDist ⟨300, 0⟩ ⟨0, 0⟩) Slingshot.MAX_DRAG_DIST :=
  drag_clamp_on_segment ⟨0, 0⟩ ⟨300, 0⟩

/-- C9: in the initial bubble grid every bubble of row r sits at
y = radius + r · radius · √3 (so row 0 sits at y = radius), even rows place
their bubbles with no horizontal offset and odd rows shift them by one
bubble radius; every even row has GRID_COLS bubbles and every odd row has
GRID_COLS − 1. -/
theorem grid_layout (width : ℝ) (colorOf : ℕ → ℕ → Slingshot.BubbleColor) :
    (∀ b ∈ Slingshot.initGrid width colorOf,
        b.y = Slingshot.BUBBLE_RADIUS + b.row * (Slingshot.BUBBLE_RADIUS * Real.sqrt 3) ∧
        (b.row % 2 = 0 →
          b.x = (width - (Slingshot.GRID_COLS * Slingshot.BUBBLE_RADIUS * 2)) / 2 +
            Slingshot.BUBBLE_RADIUS + b.col * (Slingshot.BUBBLE_RADIUS * 2)) ∧
        (b.row % 2 ≠ 0 →
          b.x = (width - (Slingshot.GRID_COLS * Slingshot.BUBBLE_RADIUS * 2)) / 2 +
            Slingshot.BUBBLE_RADIUS + b.col * (Slingshot.BUBBLE_RADIUS * 2) +
            Slingshot.BUBBLE_RADIUS) ∧
        (b.row = 0 → b.y = Slingshot.BUBBLE_RADIUS)) ∧
      ∀ r < 5, ((Slingshot.initGrid width colorOf).filter fun b => b.row = r).length =
        if r % 2 = 0 then Slingshot.GRID_COLS else Slingshot.GRID_COLS - 1 := by
  constructor
  · intro b hb
    unfold Slingshot.initGrid at hb
    rw [List.mem_flatMap] at hb
    obtain ⟨r, hr, hb⟩ := hb
    rw [List.mem_map] at hb
    obtain ⟨c, hc, rfl⟩ := hb
    dsimp only
    refine ⟨?_, ?_, ?_, ?_⟩
    · show (Slingshot.getBubblePos r c width).y =
        Slingshot.BUBBLE_RADIUS + r * (Slingshot.BUBBLE_RADIUS * Real.sqrt 3)
      rfl
    · intro heven
      show (Slingshot.getBubblePos r c width).x =
        (width - (Slingshot.GRID_COLS * Slingshot.BUBBLE_RADIUS * 2)) / 2 +
          Slingshot.BUBBLE_RADIUS + c * (Slingshot.BUBBLE_RADIUS * 2)
      unfold Slingshot.getBubblePos
      dsimp only
      rw [if_neg (by omega), add_zero]
    · intro hodd
      show (Slingshot.getBubblePos r c width).x =
        (width - (Slingshot.GRID_COLS * Slingshot.BUBBLE_RADIUS * 2)) / 2 +
          Slingshot.BUBBLE_RADIUS + c * (Slingshot.BUBBLE_RADIUS * 2) +
          Slingshot.BUBBLE_RADIUS
      unfold Slingshot.getBubblePos
      dsimp only
      rw [if_pos hodd]
    · intro h0
      rw [show r = 0 from h0]
      show (Slingshot.getBubblePos 0 c width).y = Slingshot.BUBBLE_RADIUS
      unfold Slingshot.getBubblePos
      dsimp only
      rw [Nat.cast_zero, zero_mul, add_zero]
  · intro r hr
    interval_cases r <;> rfl

/-- Witness for grid_layout: in a concrete grid, row 0 holds GRID_COLS
bubbles. -/
theorem grid_layout_witness :
    ((Slingshot.initGrid 100 (fun _ _ => Slingshot.BubbleColor.red)).filter
        fun b => b.row = 0).length =
      if 0 % 2 = 0 then Slingshot.GRID_COLS else Slingshot.GRID_COLS - 1 :=
  (grid_layout 100 (fun _ _ => Slingshot.BubbleColor.red)).2 0 (by norm_num)

/-- Witness for collision_iff_radius_factor: a projectile exactly at an
active bubble's centre registers a hit. -/
theorem collision_iff_witness :
    (Slingshot.findHit ⟨0, 0⟩
        [{ id := "0-0", row := 0, col := 0, x := 0, y := 0,
           color := Slingshot.BubbleColor.red, active := true }]).isSome = true :=
  (collision_iff_radius_factor ⟨0, 0⟩ _).mpr
    ⟨{ id := "0-0", row := 0, col := 0, x := 0, y := 0,
       color := Slingshot.BubbleColor.red, active := true },
      List.mem_singleton.mpr rfl, rfl, by
        rw [show ((0 : ℝ) - 0) ^ 2 + ((0 : ℝ) - 0) ^ 2 = 0 by norm_num, Real.sqrt_zero]
        norm_num [Slingshot.BUBBLE_RADIUS]⟩

end PaintingStudio
